import Mathlib

set_option maxHeartbeats 1000000

/-!
Verification development for the authentication/session core of the
full-stack template repository.  The backend `AuthService` (Google login,
email login, token refresh with rotation, logout) and the
`FirebaseAdminService` token verifier are embedded as pure Lean functions
over an explicit relational state; the mobile request pipeline (axios
401 interceptor) and the entry-screen redirect logic are embedded as
pure decision functions.  Timestamps are integers (milliseconds since
epoch); database-generated fresh values (UUIDs, row ids) are passed in
as explicit parameters.
-/

/-- A row of the `users` table (Prisma model `User`). -/
structure UserRec where
  id : String
  email : String
  provider : String
  providerId : Option String
  password : Option String
  firstName : Option String
  lastName : Option String
  avatarUrl : Option String
  role : String
  hasCompletedOnboarding : Bool
  createdAt : Int
  deletedAt : Option Int
deriving Repr, DecidableEq

/-- A row of the `refresh_tokens` table (Prisma model `RefreshToken`). -/
structure RefreshTokenRec where
  id : String
  token : String
  userId : String
  expiresAt : Int
  revokedAt : Option Int
deriving Repr, DecidableEq

/-- The relational store touched by the auth module. -/
structure Db where
  users : List UserRec
  refreshTokens : List RefreshTokenRec
deriving Repr, DecidableEq

/-- Errors thrown by the backend auth code: `UnauthorizedException`
from NestJS, or a plain JavaScript `Error`. -/
inductive AuthError where
  | unauthorizedException (msg : String)
  | jsError (msg : String)
deriving Repr, DecidableEq

/-- The payload of the identity assertion returned by the Google
tokeninfo endpoint (`GoogleUserInfo` in `firebase-admin.ts`). -/
structure GoogleUserInfo where
  iss : String
  azp : String
  aud : String
  sub : String
  at_hash : String
  email : String
  email_verified : Bool
  name : String
  given_name : String
  family_name : String
  picture : String
  locale : String
  iat : String
  exp : String
deriving Repr, DecidableEq

/-- Configured audiences for the token verifier
(`firebase.webClientId` / `firebase.iosClientId`; `none` models an
undefined config value). -/
structure FirebaseConfig where
  webClientId : Option String
  iosClientId : Option String
deriving Repr, DecidableEq

/-- JWT configuration (`jwt.secret`, `jwt.expiresIn`,
`jwt.refreshExpiresIn`; `none` models an undefined config value). -/
structure JwtConfig where
  secret : Option String
  expiresIn : Option String
  refreshExpiresIn : Option String
deriving Repr, DecidableEq

/-- Severity of a logger call in the verifier. -/
inductive LogLevel where
  | log
  | warn
  | error
deriving Repr, DecidableEq

/-- One logger call. -/
structure LogEntry where
  level : LogLevel
  message : String
deriving Repr, DecidableEq

/-- JavaScript `v || d` on an optional string config value: `undefined`
and the empty string are falsy and yield the default. -/
def jsOrDefault (v : Option String) (d : String) : String :=
  match v with
  | none => d
  | some s => if s = "" then d else s

/-- JavaScript `s || null` on a string claim: the empty string is falsy
and becomes `null`. -/
def jsStringOrNull (s : String) : Option String :=
  if s = "" then none else some s

/-- Digit-string to number, the effect of `parseInt(m, 10)` on the first
capture group of the expiry regex. -/
def digitsToNat (cs : List Char) : Nat :=
  cs.foldl (fun acc c => acc * 10 + (c.toNat - 48)) 0

/-- Matching of the regex `^(\d+)([dhms])$`: one or more digits followed
by exactly one unit letter.  Returns the two capture groups on a match. -/
def matchExpiryRegex (s : String) : Option (Nat × Char) :=
  match s.data.getLast? with
  | none => none
  | some unit =>
      let digits := s.data.dropLast
      if (unit = 'd' || unit = 'h' || unit = 'm' || unit = 's')
          && !digits.isEmpty && digits.all Char.isDigit then
        some (digitsToNat digits, unit)
      else
        none

/-- `AuthService.parseExpiryToSeconds`: converts a duration string such
as `15m` or `7d` to seconds, returning 900 when the string does not
match the expected pattern. -/
def parseExpiryToSeconds (expiry : String) : Nat :=
  match matchExpiryRegex expiry with
  | none => 900
  | some (value, unit) =>
      if unit = 'd' then value * 86400
      else if unit = 'h' then value * 3600
      else if unit = 'm' then value * 60
      else if unit = 's' then value
      else 900

/-- The inline duplicate of the expiry parsing in the `JwtModule`
factory of `auth.module.ts`: `expiresIn` starts at 900 and is replaced
only when the regex matches. -/
def jwtModuleSignExpiresIn (cfg : JwtConfig) : Nat :=
  let expiresInStr := jsOrDefault cfg.expiresIn "15m"
  match matchExpiryRegex expiresInStr with
  | none => 900
  | some (value, unit) =>
      if unit = 'd' then value * 86400
      else if unit = 'h' then value * 3600
      else if unit = 'm' then value * 60
      else if unit = 's' then value
      else 900

/-- The access credential minted by `jwtService.sign`: the payload
`[sub, email, role]` together with the expiry (in seconds) passed in the
sign options.  Signing itself is external, so the signed token is
modelled by its content. -/
structure AccessTokenClaims where
  sub : String
  email : String
  role : String
  expiresInSeconds : Nat
deriving Repr, DecidableEq

/-- The pair returned by `AuthService.generateTokens`. -/
structure TokenPair where
  accessToken : AccessTokenClaims
  refreshToken : String
deriving Repr, DecidableEq

/-- `AuthService.generateTokens`: signs a fresh access credential and
persists a fresh refresh credential row.  `now` is the current time in
milliseconds; `freshToken` is the `uuidv4()` value and `freshRowId` the
database-generated row id. -/
def generateTokens (db : Db) (cfg : JwtConfig) (now : Int)
    (freshToken freshRowId : String)
    (userId email role : String) : TokenPair × Db :=
  let expiresInStr := jsOrDefault cfg.expiresIn "15m"
  let expiresIn := parseExpiryToSeconds expiresInStr
  let accessToken : AccessTokenClaims :=
    { sub := userId, email := email, role := role, expiresInSeconds := expiresIn }
  let refreshExpiresInStr := jsOrDefault cfg.refreshExpiresIn "7d"
  let refreshSeconds := parseExpiryToSeconds refreshExpiresInStr
  let expiresAt := now + (refreshSeconds : Int) * 1000
  let newRec : RefreshTokenRec :=
    { id := freshRowId, token := freshToken, userId := userId,
      expiresAt := expiresAt, revokedAt := none }
  ({ accessToken := accessToken, refreshToken := freshToken },
   { db with refreshTokens := db.refreshTokens ++ [newRec] })

/-- The Prisma `update where id` of the refresh flow: stamp `revokedAt`
on the row with the given id. -/
def revokeById (rowId : String) (now : Int) (r : RefreshTokenRec) : RefreshTokenRec :=
  if r.id = rowId then { r with revokedAt := some now } else r

/-- `AuthService.refreshTokens`: looks the credential up by token, fails
with `Invalid refresh token` when it is absent, revoked or past expiry,
otherwise revokes it and mints a fresh pair for the owning user.  The
`include user` relation is resolved by id with no soft-delete filter,
exactly as in the source. -/
def refreshTokens (db : Db) (cfg : JwtConfig) (now : Int)
    (freshToken freshRowId : String)
    (refreshTok : String) : Except AuthError (TokenPair × Db) :=
  match db.refreshTokens.find? (fun r => r.token = refreshTok) with
  | none => .error (.unauthorizedException "Invalid refresh token")
  | some stored =>
      if stored.revokedAt.isSome || stored.expiresAt < now then
        .error (.unauthorizedException "Invalid refresh token")
      else
        match db.users.find? (fun u => u.id = stored.userId) with
        | none => .error (.jsError "Referenced user row missing")
        | some user =>
            let db1 : Db :=
              { db with refreshTokens := db.refreshTokens.map (revokeById stored.id now) }
            .ok (generateTokens db1 cfg now freshToken freshRowId
                  user.id user.email user.role)

/-- `AuthService.logout`: `updateMany` stamping `revokedAt` on every
credential row whose token matches; there is no failure path. -/
def revokeMatching (refreshTok : String) (now : Int) (r : RefreshTokenRec) : RefreshTokenRec :=
  if r.token = refreshTok then { r with revokedAt := some now } else r

/-- `AuthService.logout` proper (see `revokeMatching` for the row
transformation applied by `updateMany`). -/
def logout (db : Db) (now : Int) (refreshTok : String) : Db :=
  { db with refreshTokens := db.refreshTokens.map (revokeMatching refreshTok now) }

/-- The `/auth/logout` controller action: always delegates to
`AuthService.logout` and returns the success message. -/
def logoutEndpoint (db : Db) (now : Int) (refreshTok : String) :
    Except AuthError (String × Db) :=
  .ok ("Logged out successfully", logout db now refreshTok)

/-- The audience cross-check in `verifyGoogleToken`: the claim matches
neither the configured web client id nor the configured iOS client id
(an undefined config value never equals a string claim, as in
JavaScript strict inequality). -/
def audienceMismatch (cfg : FirebaseConfig) (data : GoogleUserInfo) : Bool :=
  !(cfg.webClientId = some data.aud) && !(cfg.iosClientId = some data.aud)

/-- `FirebaseAdminService.verifyGoogleToken`: the call to the Google
tokeninfo endpoint is external, so its outcome is a parameter.  On
success the claims are returned unconditionally; an audience mismatch
only adds a warning log entry.  On provider rejection a plain
`Error: Invalid Google token` is thrown. -/
def verifyGoogleToken (cfg : FirebaseConfig)
    (providerResponse : Except String GoogleUserInfo) :
    Except AuthError GoogleUserInfo × List LogEntry :=
  match providerResponse with
  | .ok data =>
      let warnMsg :=
        "Token audience mismatch: expected " ++ cfg.webClientId.getD "undefined" ++
          " or " ++ cfg.iosClientId.getD "undefined" ++ ", got " ++ data.aud
      let warnLogs :=
        if audienceMismatch cfg data then [LogEntry.mk .warn warnMsg] else []
      let okLog := LogEntry.mk .log ("Google token verified for user: " ++ data.email)
      (.ok data, warnLogs ++ [okLog])
  | .error _ =>
      (.error (.jsError "Invalid Google token"),
       [LogEntry.mk .error "Failed to verify Google token"])

/-- The field selection returned to the client by `loginWithGoogle`
(the Prisma `select` block: no password, no deletion timestamp). -/
structure PublicUser where
  id : String
  email : String
  firstName : Option String
  lastName : Option String
  avatarUrl : Option String
  role : String
  hasCompletedOnboarding : Bool
  createdAt : Int
deriving Repr, DecidableEq

/-- Projection of a `users` row through the `select` block. -/
def UserRec.toPublic (u : UserRec) : PublicUser :=
  { id := u.id, email := u.email, firstName := u.firstName,
    lastName := u.lastName, avatarUrl := u.avatarUrl, role := u.role,
    hasCompletedOnboarding := u.hasCompletedOnboarding, createdAt := u.createdAt }

/-- The `update` block of the upsert in `loginWithGoogle`: refresh the
provider-subject id and the avatar of an existing row. -/
def applyGoogleUpdate (g : GoogleUserInfo) (v : UserRec) : UserRec :=
  { v with providerId := some g.sub, avatarUrl := jsStringOrNull g.picture }

/-- The Prisma `update where email` part of the upsert: rewrite the row
whose email matches. -/
def updateWhereEmail (e : String) (f : UserRec → UserRec) (us : List UserRec) :
    List UserRec :=
  us.map (fun v => if v.email = e then f v else v)

/-- The `create` block of the upsert in `loginWithGoogle`: the fresh
row minted for a first login with this email. -/
def googleCreateUser (g : GoogleUserInfo) (freshUserId : String) (now : Int) : UserRec :=
  { id := freshUserId, email := g.email, provider := "google",
    providerId := some g.sub, password := none,
    firstName := jsStringOrNull g.given_name,
    lastName := jsStringOrNull g.family_name,
    avatarUrl := jsStringOrNull g.picture, role := "USER",
    hasCompletedOnboarding := false, createdAt := now, deletedAt := none }

/-- The Prisma `user.upsert` of `loginWithGoogle`: keyed on the unique
`email` column with no soft-delete filter.  When a row with the email
exists it is updated in place (provider-subject id and avatar);
otherwise a fresh row is created. -/
def userUpsertByEmail (users : List UserRec) (g : GoogleUserInfo)
    (freshUserId : String) (now : Int) : UserRec × List UserRec :=
  match users.find? (fun u => u.email = g.email) with
  | some u =>
      (applyGoogleUpdate g u, updateWhereEmail g.email (applyGoogleUpdate g) users)
  | none =>
      (googleCreateUser g freshUserId now, users ++ [googleCreateUser g freshUserId now])

/-- The value returned by `loginWithGoogle`: selected user fields plus
the freshly minted credential pair. -/
structure LoginResult where
  user : PublicUser
  accessToken : AccessTokenClaims
  refreshToken : String
deriving Repr, DecidableEq

/-- `AuthService.loginWithGoogle`: verify the identity assertion,
reject a missing (falsy) email claim, upsert the user by email, then
generate a credential pair. -/
def loginWithGoogle (db : Db) (fcfg : FirebaseConfig) (jcfg : JwtConfig)
    (providerResponse : Except String GoogleUserInfo) (now : Int)
    (freshUserId freshToken freshRowId : String) :
    Except AuthError (LoginResult × Db) :=
  match (verifyGoogleToken fcfg providerResponse).fst with
  | .error e => .error e
  | .ok googleUser =>
      if googleUser.email = "" then
        .error (.unauthorizedException "Email not provided by Google")
      else
        let u := (userUpsertByEmail db.users googleUser freshUserId now).fst
        let db1 : Db :=
          { db with users := (userUpsertByEmail db.users googleUser freshUserId now).snd }
        let minted := generateTokens db1 jcfg now freshToken freshRowId u.id u.email u.role
        .ok ({ user := u.toPublic, accessToken := minted.fst.accessToken,
               refreshToken := minted.fst.refreshToken }, minted.snd)

/-- `AuthService.login` (email/password): the lookup filters on
`deletedAt: null`.  Password comparison is external (bcrypt), so its
outcome is a parameter used only when the stored hash exists. -/
def emailLogin (db : Db) (email : String)
    (passwordMatches : String → Bool) : Except AuthError PublicUser :=
  match db.users.find? (fun u => u.email = email && u.deletedAt = none) with
  | none => .error (.unauthorizedException "Invalid credentials")
  | some user =>
      if user.provider ≠ "email" then
        .error (.unauthorizedException "Please use OAuth to sign in")
      else
        match user.password with
        | none => .error (.unauthorizedException "Invalid credentials")
        | some hash =>
            if passwordMatches hash then .ok user.toPublic
            else .error (.unauthorizedException "Invalid credentials")

/-- `AuthService.getMe`: lookup by id filtered on `deletedAt: null`. -/
def getMe (db : Db) (userId : String) : Except AuthError PublicUser :=
  match db.users.find? (fun u => u.id = userId && u.deletedAt = none) with
  | none => .error (.unauthorizedException "User not found")
  | some user => .ok user.toPublic

/-- The outcome of one logical client request as seen by feature code
after the axios response interceptor. -/
inductive ApiResult where
  | success (status : Nat)
  | failure (status : Nat)
  | noResponse
deriving Repr, DecidableEq

/-- The 401 handler of the response interceptor in `shared/lib/api.ts`,
run over the scripted sequence of server responses for one logical
request.  `retried` is the `_retry` flag on the request config;
`refreshTokenPresent` says whether the session store holds a refresh
token; `refreshSucceeds` is the outcome of the external refresh call.
The second component counts how many times the original request was
replayed through `api(originalRequest)`. -/
def interceptorRun (retried refreshTokenPresent refreshSucceeds : Bool) :
    List Nat → ApiResult × Nat
  | [] => (.noResponse, 0)
  | status :: rest =>
      if 200 ≤ status && status < 300 then
        (.success status, 0)
      else if status = 401 && !retried then
        if refreshTokenPresent && refreshSucceeds then
          let replay := interceptorRun true refreshTokenPresent refreshSucceeds rest
          (replay.fst, replay.snd + 1)
        else
          (.failure status, 0)
      else
        (.failure status, 0)

/-- The routes the entry screen can redirect to. -/
inductive Route where
  | tabsHome
  | onboarding
  | authLogin
deriving Repr, DecidableEq

/-- The user object held in the mobile auth store (only the field the
entry screen reads). -/
structure MobileUser where
  id : String
  hasCompletedOnboarding : Bool
deriving Repr, DecidableEq

/-- The redirect decision of the entry screen `Index` in
`mobile/src/app/index.tsx`: the effect returns without navigating when
either the layout is not ready or the store has not hydrated; otherwise
it replaces the route according to authentication and onboarding
state. -/
def indexRedirectDecision (isLayoutReady hasHydrated isAuthenticated : Bool)
    (user : Option MobileUser) : Option Route :=
  if !isLayoutReady || !hasHydrated then
    none
  else
    match user with
    | some u =>
        if isAuthenticated then
          if u.hasCompletedOnboarding then some .tabsHome else some .onboarding
        else some .authLogin
    | none => some .authLogin

example : parseExpiryToSeconds "15m" = 900 := by decide
example : parseExpiryToSeconds "7d" = 604800 := by decide
example : parseExpiryToSeconds "1w" = 900 := by decide
example : parseExpiryToSeconds "15min" = 900 := by decide
example : parseExpiryToSeconds "900" = 900 := by decide
example : parseExpiryToSeconds "2h" = 7200 := by decide
example : parseExpiryToSeconds "45s" = 45 := by decide
example : interceptorRun false true true [401, 401] = (.failure 401, 1) := by decide
example : interceptorRun false true true [401, 200] = (.success 200, 1) := by decide
example : interceptorRun false false true [401, 200] = (.failure 401, 0) := by decide

/-- Revoking by matching token twice is the same as revoking once. -/
lemma revokeMatching_idem (t : String) (now : Int) (r : RefreshTokenRec) :
    revokeMatching t now (revokeMatching t now r) = revokeMatching t now r := by
  by_cases h : r.token = t <;> simp [revokeMatching, h]

/-- A request whose `_retry` flag is already set is never replayed. -/
lemma interceptorRun_snd_of_retried (p s : Bool) (l : List Nat) :
    (interceptorRun true p s l).snd = 0 := by
  cases l with
  | nil => rfl
  | cons a rest =>
      simp only [interceptorRun]
      split
      · rfl
      · simp

/-- C7: `logout` is total and idempotent.  The endpoint always returns
the success message, every credential row matching the token ends up
revoked, and running logout a second time with the same token is a
no-op that again returns the success message. -/
theorem logout_is_total_and_idempotent (db : Db) (now : Int) (t : String) :
    logoutEndpoint db now t = .ok ("Logged out successfully", logout db now t) ∧
    (∀ r ∈ (logout db now t).refreshTokens, r.token = t → r.revokedAt = some now) ∧
    logout (logout db now t) now t = logout db now t ∧
    logoutEndpoint (logout db now t) now t =
      .ok ("Logged out successfully", logout db now t) := by
  have hidem : logout (logout db now t) now t = logout db now t := by
    simp only [logout, List.map_map]
    exact congrArg _ (List.map_congr_left (fun r _ => revokeMatching_idem t now r))
  refine ⟨rfl, ?_, hidem, ?_⟩
  · intro r hr hrt
    simp only [logout] at hr
    obtain ⟨r0, hr0, rfl⟩ := List.mem_map.1 hr
    by_cases h : r0.token = t
    · simp [revokeMatching, h]
    · simp only [revokeMatching, if_neg h] at hrt
      exact absurd hrt h
  · simp only [logoutEndpoint, hidem]

/-- Witness for C7 at a concrete store holding one credential. -/
def dbLogout : Db := Db.mk [] [RefreshTokenRec.mk "rt1" "R1" "u1" 10000 none]

/-- C7 witness: the logout properties evaluated at a concrete store and
token. -/
theorem logout_is_total_and_idempotent_witness :
    logoutEndpoint dbLogout 5 "R1" = .ok ("Logged out successfully", logout dbLogout 5 "R1") ∧
    (∀ r ∈ (logout dbLogout 5 "R1").refreshTokens, r.token = "R1" → r.revokedAt = some 5) ∧
    logout (logout dbLogout 5 "R1") 5 "R1" = logout dbLogout 5 "R1" ∧
    logoutEndpoint (logout dbLogout 5 "R1") 5 "R1" =
      .ok ("Logged out successfully", logout dbLogout 5 "R1") :=
  logout_is_total_and_idempotent dbLogout 5 "R1"

/-- C8: the silent refresh-and-replay recovery runs at most once per
logical request.  For the scripted response sequence 401 then 401 with
a successful refresh, the request is replayed exactly once and the
second 401 is surfaced as a failure; and for every response sequence
the replay count never exceeds one. -/
theorem silent_refresh_replay_at_most_once :
    interceptorRun false true true [401, 401] = (.failure 401, 1) ∧
    ∀ (retried refreshTokenPresent refreshSucceeds : Bool) (responses : List Nat),
      (interceptorRun retried refreshTokenPresent refreshSucceeds responses).snd ≤ 1 := by
  refine ⟨by decide, ?_⟩
  intro retried p s responses
  cases responses with
  | nil => simp [interceptorRun]
  | cons a rest =>
      simp only [interceptorRun]
      split
      · simp
      · split
        · split
          · simp [interceptorRun_snd_of_retried]
          · simp
        · simp

/-- C9: while the hydration flag is false the entry screen makes no
navigation decision at all: no redirect to the login route and no
redirect to an access-gated route, whatever the (eventually hydrating)
authentication state is. -/
theorem no_redirect_before_hydration (isLayoutReady isAuthenticated : Bool)
    (user : Option MobileUser) :
    indexRedirectDecision isLayoutReady false isAuthenticated user = none := by
  simp [indexRedirectDecision]

/-- Empty relational store, used by several witnesses. -/
def dbEmpty : Db := Db.mk [] []

/-- A JWT configuration whose two expiry strings are malformed. -/
def cfgMalformed : JwtConfig :=
  JwtConfig.mk (some "secret") (some "1w") (some "900")

/-- C10: every expiry string that fails the `digits-then-unit` pattern
makes `parseExpiryToSeconds` return 900, so with malformed configured
durations both the access-token lifetime and the refresh-credential
lifetime silently fall back to 900 seconds, in `generateTokens` and in
the `JwtModule` factory alike. -/
theorem malformed_expiry_falls_back_to_900
    (db : Db) (cfg : JwtConfig) (now : Int) (ft fr uid em rl s t : String)
    (hs : cfg.expiresIn = some s) (ht : cfg.refreshExpiresIn = some t)
    (hsne : s ≠ "") (htne : t ≠ "")
    (hsm : matchExpiryRegex s = none) (htm : matchExpiryRegex t = none) :
    parseExpiryToSeconds s = 900 ∧
    parseExpiryToSeconds t = 900 ∧
    jwtModuleSignExpiresIn cfg = 900 ∧
    (generateTokens db cfg now ft fr uid em rl).fst.accessToken.expiresInSeconds = 900 ∧
    (generateTokens db cfg now ft fr uid em rl).snd.refreshTokens =
      db.refreshTokens ++
        [RefreshTokenRec.mk fr ft uid (now + (900 : Nat) * 1000) none] := by
  refine ⟨?_, ?_, ?_, ?_, ?_⟩ <;>
    simp [parseExpiryToSeconds, jwtModuleSignExpiresIn, generateTokens,
      jsOrDefault, hs, ht, hsne, htne, hsm, htm]

/-- C10 witness: the fallback evaluated at the concrete malformed
duration strings `1w` and `900`. -/
theorem malformed_expiry_falls_back_to_900_witness :
    parseExpiryToSeconds "1w" = 900 ∧
    parseExpiryToSeconds "900" = 900 ∧
    jwtModuleSignExpiresIn cfgMalformed = 900 ∧
    (generateTokens dbEmpty cfgMalformed 0 "T" "R" "u1" "a@b.com" "USER").fst.accessToken.expiresInSeconds = 900 ∧
    (generateTokens dbEmpty cfgMalformed 0 "T" "R" "u1" "a@b.com" "USER").snd.refreshTokens =
      dbEmpty.refreshTokens ++
        [RefreshTokenRec.mk "R" "T" "u1" (0 + (900 : Nat) * 1000) none] :=
  malformed_expiry_falls_back_to_900 dbEmpty cfgMalformed 0 "T" "R" "u1" "a@b.com" "USER"
    "1w" "900" rfl rfl (by decide) (by decide) (by decide) (by decide)

/-- C5: when the provider accepts the token, `verifyGoogleToken`
returns the claims successfully even though the audience claim matches
neither configured audience; the mismatch only produces a warning log
entry, never a rejection. -/
theorem audience_mismatch_only_warns (cfg : FirebaseConfig) (data : GoogleUserInfo)
    (hweb : cfg.webClientId ≠ some data.aud) (hios : cfg.iosClientId ≠ some data.aud) :
    (verifyGoogleToken cfg (.ok data)).fst = .ok data ∧
    ∃ e ∈ (verifyGoogleToken cfg (.ok data)).snd, e.level = .warn := by
  have hmis : audienceMismatch cfg data = true := by
    simp [audienceMismatch, hweb, hios]
  refine ⟨by simp [verifyGoogleToken], ?_⟩
  simp only [verifyGoogleToken, hmis, if_pos]
  exact ⟨_, List.mem_cons_self _ _, rfl⟩

/-- Verifier configuration used by the C5 witness. -/
def fcfgTwoAudiences : FirebaseConfig :=
  FirebaseConfig.mk (some "web-client") (some "ios-client")

/-- Claims whose audience matches neither configured audience. -/
def gAudMismatch : GoogleUserInfo :=
  GoogleUserInfo.mk "accounts.google.com" "x" "other-client" "g-123" "h"
    "a@b.com" true "Ann B" "Ann" "B" "" "en" "0" "0"

/-- C5 witness: leniency evaluated at a concrete mismatching claim
set. -/
theorem audience_mismatch_only_warns_witness :
    (verifyGoogleToken fcfgTwoAudiences (.ok gAudMismatch)).fst = .ok gAudMismatch ∧
    ∃ e ∈ (verifyGoogleToken fcfgTwoAudiences (.ok gAudMismatch)).snd, e.level = .warn :=
  audience_mismatch_only_warns fcfgTwoAudiences gAudMismatch (by decide) (by decide)

/-- C6: when the provider rejects the identity token, or the verified
claims lack an email, Google login fails with the corresponding
invalid-credential error and the error propagates to the caller; no
session is created (the error result carries no store, so the store is
left untouched) and no default identity is substituted. -/
theorem google_login_failure_creates_no_session (db : Db) (fcfg : FirebaseConfig)
    (jcfg : JwtConfig) (now : Int) (fid ft fr : String) :
    (∀ errMsg : String,
        loginWithGoogle db fcfg jcfg (.error errMsg) now fid ft fr =
          .error (.jsError "Invalid Google token")) ∧
    (∀ g : GoogleUserInfo, g.email = "" →
        loginWithGoogle db fcfg jcfg (.ok g) now fid ft fr =
          .error (.unauthorizedException "Email not provided by Google")) := by
  constructor
  · intro errMsg
    rfl
  · intro g hg
    simp [loginWithGoogle, verifyGoogleToken, hg]

/-- Claims with an absent (empty, hence falsy) email. -/
def gNoEmail : GoogleUserInfo :=
  GoogleUserInfo.mk "accounts.google.com" "x" "web-client" "g-999" "h"
    "" true "NN" "" "" "" "en" "0" "0"

/-- JWT configuration with well-formed durations, used by witnesses. -/
def jcfgW : JwtConfig := JwtConfig.mk (some "secret") (some "15m") (some "7d")

/-- C6 witness: both failure modes evaluated at concrete inputs. -/
theorem google_login_failure_creates_no_session_witness :
    loginWithGoogle dbEmpty fcfgTwoAudiences jcfgW (.error "provider rejected") 0 "u1" "T" "R" =
      .error (.jsError "Invalid Google token") ∧
    loginWithGoogle dbEmpty fcfgTwoAudiences jcfgW (.ok gNoEmail) 0 "u1" "T" "R" =
      .error (.unauthorizedException "Email not provided by Google") :=
  ⟨(google_login_failure_creates_no_session dbEmpty fcfgTwoAudiences jcfgW 0 "u1" "T" "R").1
      "provider rejected",
   (google_login_failure_creates_no_session dbEmpty fcfgTwoAudiences jcfgW 0 "u1" "T" "R").2
      gNoEmail rfl⟩

/-- Revoking a row by id never changes its token. -/
lemma revokeById_token (i : String) (now : Int) (r : RefreshTokenRec) :
    (revokeById i now r).token = r.token := by
  unfold revokeById
  split <;> rfl

/-- Revoking the found row by its own id stamps the revocation time. -/
lemma revokeById_self (st : RefreshTokenRec) (now : Int) :
    revokeById st.id now st = { st with revokedAt := some now } := by
  simp [revokeById]

/-- Lookup by token commutes with the revoke-by-id rewrite, because the
rewrite preserves tokens. -/
lemma find?_token_map_revokeById (l : List RefreshTokenRec) (t i : String) (now : Int) :
    (l.map (revokeById i now)).find? (fun r => r.token = t) =
      (l.find? (fun r => r.token = t)).map (revokeById i now) := by
  rw [List.find?_map]
  have hp : ((fun r => decide (r.token = t)) ∘ revokeById i now) =
      (fun r => decide (r.token = t)) := by
    funext r
    simp [Function.comp, revokeById_token]
  rw [hp]

/-- C1: a refresh credential is single-use.  If redeeming token `t`
succeeds once (with a fresh replacement token different from `t`), any
later redemption of `t` against the resulting store fails with the
authentication error, whatever the later time and configuration. -/
theorem refresh_rotation_single_use
    (db : Db) (cfg cfg2 : JwtConfig) (now now2 : Int)
    (ft fr ft2 fr2 t : String) (out : TokenPair) (db2 : Db)
    (hok : refreshTokens db cfg now ft fr t = .ok (out, db2))
    (hfresh : ft ≠ t) :
    refreshTokens db2 cfg2 now2 ft2 fr2 t =
      .error (.unauthorizedException "Invalid refresh token") := by
  unfold refreshTokens at hok
  split at hok
  · exact absurd hok (by simp)
  next stored hfind =>
    split at hok
    · exact absurd hok (by simp)
    next hgood =>
      split at hok
      · exact absurd hok (by simp)
      next user huser =>
        injection hok with hpair
        have hsnd := congrArg Prod.snd hpair
        subst hsnd
        have hfind2 :
            ((generateTokens
                { db with refreshTokens := db.refreshTokens.map (revokeById stored.id now) }
                cfg now ft fr user.id user.email user.role).snd).refreshTokens.find?
              (fun r => r.token = t) = some { stored with revokedAt := some now } := by
          simp only [generateTokens]
          rw [List.find?_append, find?_token_map_revokeById, hfind]
          simp [revokeById_self]
        unfold refreshTokens
        rw [hfind2]
        simp

/-- User row backing the C1 witness. -/
def uAnn : UserRec :=
  UserRec.mk "u1" "ann@example.com" "google" (some "g-1") none (some "Ann")
    none none "USER" false 0 none

/-- Store before the C1 witness rotation: one valid credential `R1`. -/
def dbC1 : Db := Db.mk [uAnn] [RefreshTokenRec.mk "rt1" "R1" "u1" 10000 none]

/-- Pair minted by the C1 witness rotation. -/
def pairC1 : TokenPair :=
  TokenPair.mk (AccessTokenClaims.mk "u1" "ann@example.com" "USER" 900) "R2"

/-- Store after the C1 witness rotation: `R1` revoked, `R2` minted. -/
def dbC1after : Db :=
  Db.mk [uAnn]
    [RefreshTokenRec.mk "rt1" "R1" "u1" 10000 (some 0),
     RefreshTokenRec.mk "rt2" "R2" "u1" 604800000 none]

/-- C1 witness: after one concrete successful rotation of `R1`, a
second redemption of `R1` fails. -/
theorem refresh_rotation_single_use_witness :
    refreshTokens dbC1after jcfgW 1 "R3" "rt3" "R1" =
      .error (.unauthorizedException "Invalid refresh token") :=
  refresh_rotation_single_use dbC1 jcfgW jcfgW 0 1 "R2" "rt2" "R3" "rt3" "R1"
    pairC1 dbC1after (by rfl) (by decide)

/-- The unique constraint on the `token` column of `refresh_tokens`:
distinct rows carry distinct tokens. -/
def TokensUnique (l : List RefreshTokenRec) : Prop :=
  l.Pairwise (fun a b => a.token ≠ b.token)

/-- Referential integrity of the `userId` foreign key: every credential
row points at an existing user row. -/
def TokensHaveUsers (db : Db) : Prop :=
  ∀ r ∈ db.refreshTokens, ∃ u ∈ db.users, u.id = r.userId

/-- Under the unique constraint, two member rows with the same token
are the same row. -/
lemma eq_of_mem_of_token_eq {l : List RefreshTokenRec}
    (h : TokensUnique l) :
    ∀ a ∈ l, ∀ b ∈ l, a.token = b.token → a = b := by
  induction l with
  | nil => intro a ha; cases ha
  | cons x xs ih =>
      rw [TokensUnique, List.pairwise_cons] at h
      intro a ha b hb hab
      rcases List.mem_cons.mp ha with rfl | ha2
      · rcases List.mem_cons.mp hb with rfl | hb2
        · rfl
        · exact absurd hab (h.1 b hb2)
      · rcases List.mem_cons.mp hb with rfl | hb2
        · exact absurd hab.symm (h.1 a ha2)
        · exact ih h.2 a ha2 b hb2 hab

/-- C2: `refreshTokens` fails exactly when no stored credential has the
token, or the found credential is revoked, or its expiry is strictly
before the current time; and in every failure case the error is the one
`Invalid refresh token` authentication error, so the three causes are
indistinguishable to the caller. -/
theorem refresh_error_characterization
    (db : Db) (cfg : JwtConfig) (now : Int) (ft fr t : String)
    (huniq : TokensUnique db.refreshTokens) (hfk : TokensHaveUsers db) :
    ((∃ e, refreshTokens db cfg now ft fr t = .error e) ↔
      (∀ r ∈ db.refreshTokens, r.token ≠ t) ∨
        ∃ st ∈ db.refreshTokens, st.token = t ∧
          (st.revokedAt ≠ none ∨ st.expiresAt < now)) ∧
    ∀ e, refreshTokens db cfg now ft fr t = .error e →
      e = .unauthorizedException "Invalid refresh token" := by
  cases hfind : db.refreshTokens.find? (fun r => r.token = t) with
  | none =>
      have hall : ∀ r ∈ db.refreshTokens, r.token ≠ t := by
        intro r hr
        have := List.find?_eq_none.mp hfind r hr
        simpa using this
      have herr : refreshTokens db cfg now ft fr t =
          .error (.unauthorizedException "Invalid refresh token") := by
        simp [refreshTokens, hfind]
      refine ⟨⟨fun _ => Or.inl hall, fun _ => ⟨_, herr⟩⟩, ?_⟩
      intro e he
      rw [herr] at he
      injection he with h
      exact h.symm
  | some stored =>
      have hmem : stored ∈ db.refreshTokens := List.mem_of_find?_eq_some hfind
      have htok : stored.token = t := by simpa using List.find?_some hfind
      by_cases hbad : (stored.revokedAt.isSome || decide (stored.expiresAt < now)) = true
      · have herr : refreshTokens db cfg now ft fr t =
            .error (.unauthorizedException "Invalid refresh token") := by
          simp only [refreshTokens, hfind]
          rw [if_pos hbad]
        have hbadp : stored.revokedAt ≠ none ∨ stored.expiresAt < now := by
          have hbad2 : stored.revokedAt.isSome = true ∨ stored.expiresAt < now := by
            simpa using hbad
          rcases hbad2 with h1 | h2
          · exact Or.inl (Option.isSome_iff_ne_none.mp h1)
          · exact Or.inr h2
        refine ⟨⟨fun _ => Or.inr ⟨stored, hmem, htok, hbadp⟩, fun _ => ⟨_, herr⟩⟩, ?_⟩
        intro e he
        rw [herr] at he
        injection he with h
        exact h.symm
      · obtain ⟨u, hu, hid⟩ := hfk stored hmem
        have huser : db.users.find? (fun v => v.id = stored.userId) ≠ none := by
          intro hn
          have := List.find?_eq_none.mp hn u hu
          simp [hid] at this
        obtain ⟨user, huser⟩ := Option.ne_none_iff_exists'.mp huser
        have hok : refreshTokens db cfg now ft fr t =
            .ok (generateTokens
              { db with refreshTokens := db.refreshTokens.map (revokeById stored.id now) }
              cfg now ft fr user.id user.email user.role) := by
          simp only [refreshTokens, hfind]
          rw [if_neg hbad, huser]
        have hnoerr : ∀ e, refreshTokens db cfg now ft fr t ≠ .error e := by
          intro e he
          rw [hok] at he
          cases he
        refine ⟨⟨?_, ?_⟩, ?_⟩
        · intro ⟨e, he⟩
          exact absurd he (hnoerr e)
        · intro h
          exfalso
          rcases h with hall | ⟨st, hst, hsttok, hstbad⟩
          · exact hall stored hmem htok
          · have heq : st = stored :=
              eq_of_mem_of_token_eq huniq st hst stored hmem (hsttok.trans htok.symm)
            apply hbad
            rw [← heq]
            have hor : st.revokedAt.isSome = true ∨ st.expiresAt < now := by
              rcases hstbad with h1 | h2
              · exact Or.inl (Option.isSome_iff_ne_none.mpr h1)
              · exact Or.inr h2
            simpa using hor
        · intro e he
          exact absurd he (hnoerr e)

/-- Store for the C2 witness: one unrevoked credential whose expiry is
in the past. -/
def dbC2 : Db := Db.mk [uAnn] [RefreshTokenRec.mk "rt9" "R9" "u1" 100 none]

/-- C2 witness: the characterization evaluated at a store holding an
expired, unrevoked credential at time 200. -/
theorem refresh_error_characterization_witness :
    ((∃ e, refreshTokens dbC2 jcfgW 200 "f" "r" "R9" = .error e) ↔
      (∀ r ∈ dbC2.refreshTokens, r.token ≠ "R9") ∨
        ∃ st ∈ dbC2.refreshTokens, st.token = "R9" ∧
          (st.revokedAt ≠ none ∨ st.expiresAt < 200)) ∧
    ∀ e, refreshTokens dbC2 jcfgW 200 "f" "r" "R9" = .error e →
      e = .unauthorizedException "Invalid refresh token" :=
  refresh_error_characterization dbC2 jcfgW 200 "f" "r" "R9"
    (by unfold TokensUnique dbC2; decide) (by unfold TokensHaveUsers dbC2; decide)

/-- Number of user rows carrying a given email. -/
def countEmail (us : List UserRec) (e : String) : Nat :=
  (us.filter (fun u => u.email = e)).length

/-- The upsert update block never changes the email join key. -/
lemma applyGoogleUpdate_email (g : GoogleUserInfo) (v : UserRec) :
    (applyGoogleUpdate g v).email = v.email := rfl

/-- The upsert update block never changes the row id. -/
lemma applyGoogleUpdate_id (g : GoogleUserInfo) (v : UserRec) :
    (applyGoogleUpdate g v).id = v.id := rfl

/-- `generateTokens` only writes the credential table. -/
lemma generateTokens_users (db : Db) (cfg : JwtConfig) (now : Int)
    (ft fr uid em rl : String) :
    (generateTokens db cfg now ft fr uid em rl).snd.users = db.users := rfl

/-- Lookup by email commutes with an email-preserving rewrite of the
matching row. -/
lemma find?_updateWhereEmail (us : List UserRec) (e : String) (f : UserRec → UserRec)
    (hf : ∀ v, (f v).email = v.email) :
    (updateWhereEmail e f us).find? (fun v => v.email = e) =
      (us.find? (fun v => v.email = e)).map f := by
  unfold updateWhereEmail
  rw [List.find?_map]
  have hp : ((fun v => decide (v.email = e)) ∘ fun v => if v.email = e then f v else v) =
      (fun v => decide (v.email = e)) := by
    funext v
    by_cases h : v.email = e <;> simp [Function.comp, h, hf]
  rw [hp]
  cases hf2 : us.find? (fun v => decide (v.email = e)) with
  | none => rfl
  | some u =>
      have hu : u.email = e := by simpa using List.find?_some hf2
      simp [hu]

/-- An email-preserving rewrite of the matching row keeps the count of
rows with that email. -/
lemma countEmail_updateWhereEmail (us : List UserRec) (e : String)
    (f : UserRec → UserRec) (hf : ∀ v, (f v).email = v.email) :
    countEmail (updateWhereEmail e f us) e = countEmail us e := by
  unfold countEmail updateWhereEmail
  rw [List.filter_map]
  have hp : ((fun v => decide (v.email = e)) ∘ fun v => if v.email = e then f v else v) =
      (fun v => decide (v.email = e)) := by
    funext v
    by_cases h : v.email = e <;> simp [Function.comp, h, hf]
  rw [hp, List.length_map]

/-- Appending one row adds one to the count exactly when its email
matches. -/
lemma countEmail_append_singleton (us : List UserRec) (u : UserRec) (e : String) :
    countEmail (us ++ [u]) e = countEmail us e + (if u.email = e then 1 else 0) := by
  unfold countEmail
  rw [List.filter_append, List.length_append]
  by_cases h : u.email = e <;> simp [h]

/-- No row found by email means the count is zero. -/
lemma countEmail_eq_zero_of_find?_none (us : List UserRec) (e : String)
    (h : us.find? (fun v => v.email = e) = none) : countEmail us e = 0 := by
  unfold countEmail
  rw [List.length_eq_zero, List.filter_eq_nil_iff]
  exact List.find?_eq_none.mp h

/-- A row found by email means the count is at least one. -/
lemma one_le_countEmail_of_find?_some (us : List UserRec) (e : String) (u : UserRec)
    (h : us.find? (fun v => v.email = e) = some u) : 1 ≤ countEmail us e := by
  have hmem : u ∈ us := List.mem_of_find?_eq_some h
  have hp : u.email = e := by simpa using List.find?_some h
  have hin : u ∈ us.filter (fun v => v.email = e) :=
    List.mem_filter.mpr ⟨hmem, by simpa using hp⟩
  have := List.length_pos.mpr (List.ne_nil_of_mem hin)
  unfold countEmail
  omega

/-- Shape of a successful Google login: the returned user is the
upserted row through the `select` projection, and the users table of
the final store is the upsert result. -/
lemma loginWithGoogle_ok_parts (db : Db) (fcfg : FirebaseConfig) (jcfg : JwtConfig)
    (g : GoogleUserInfo) (now : Int) (fid ft fr : String) (r : LoginResult) (db2 : Db)
    (hemail : g.email ≠ "")
    (h : loginWithGoogle db fcfg jcfg (.ok g) now fid ft fr = .ok (r, db2)) :
    r.user = (userUpsertByEmail db.users g fid now).fst.toPublic ∧
    db2.users = (userUpsertByEmail db.users g fid now).snd := by
  simp only [loginWithGoogle, verifyGoogleToken, if_neg hemail] at h
  injection h with h
  rw [Prod.mk.injEq] at h
  obtain ⟨h1, h2⟩ := h
  subst h1
  subst h2
  exact ⟨rfl, rfl⟩

/-- C3: logging in twice with the same external identity claims (with
an email present) returns the same user id both times and leaves
exactly one user row with that email: the second call updates the
existing row in place rather than creating a second one. -/
theorem google_login_idempotent
    (db : Db) (fcfg : FirebaseConfig) (jcfg : JwtConfig) (g : GoogleUserInfo)
    (now1 now2 : Int) (id1 tok1 rid1 id2 tok2 rid2 : String)
    (r1 r2 : LoginResult) (db1 db2 : Db)
    (hemail : g.email ≠ "")
    (hcount : countEmail db.users g.email ≤ 1)
    (h1 : loginWithGoogle db fcfg jcfg (.ok g) now1 id1 tok1 rid1 = .ok (r1, db1))
    (h2 : loginWithGoogle db1 fcfg jcfg (.ok g) now2 id2 tok2 rid2 = .ok (r2, db2)) :
    r1.user.id = r2.user.id ∧ countEmail db2.users g.email = 1 ∧
    db2.users.length = db1.users.length := by
  obtain ⟨hr1, hdb1u⟩ :=
    loginWithGoogle_ok_parts db fcfg jcfg g now1 id1 tok1 rid1 r1 db1 hemail h1
  obtain ⟨hr2, hdb2u⟩ :=
    loginWithGoogle_ok_parts db1 fcfg jcfg g now2 id2 tok2 rid2 r2 db2 hemail h2
  cases hfind : db.users.find? (fun u => u.email = g.email) with
  | none =>
      have hU1 : userUpsertByEmail db.users g id1 now1 =
          (googleCreateUser g id1 now1, db.users ++ [googleCreateUser g id1 now1]) := by
        simp [userUpsertByEmail, hfind]
      have hdb1u2 : db1.users = db.users ++ [googleCreateUser g id1 now1] := by
        rw [hdb1u, hU1]
      have hfind1 : db1.users.find? (fun u => u.email = g.email) =
          some (googleCreateUser g id1 now1) := by
        rw [hdb1u2, List.find?_append, hfind]
        simp [googleCreateUser]
      have hU2 : userUpsertByEmail db1.users g id2 now2 =
          (applyGoogleUpdate g (googleCreateUser g id1 now1),
           updateWhereEmail g.email (applyGoogleUpdate g) db1.users) := by
        simp [userUpsertByEmail, hfind1]
      have hdb2u2 : db2.users = updateWhereEmail g.email (applyGoogleUpdate g) db1.users := by
        rw [hdb2u, hU2]
      refine ⟨?_, ?_, ?_⟩
      · rw [hr1, hr2, hU1, hU2]
        rfl
      · rw [hdb2u2, countEmail_updateWhereEmail _ _ _ (applyGoogleUpdate_email g), hdb1u2,
          countEmail_append_singleton, countEmail_eq_zero_of_find?_none _ _ hfind]
        simp [googleCreateUser]
      · rw [hdb2u2]
        unfold updateWhereEmail
        exact List.length_map _ _
  | some u0 =>
      have hU1 : userUpsertByEmail db.users g id1 now1 =
          (applyGoogleUpdate g u0, updateWhereEmail g.email (applyGoogleUpdate g) db.users) := by
        simp [userUpsertByEmail, hfind]
      have hdb1u2 : db1.users = updateWhereEmail g.email (applyGoogleUpdate g) db.users := by
        rw [hdb1u, hU1]
      have hfind1 : db1.users.find? (fun u => u.email = g.email) =
          some (applyGoogleUpdate g u0) := by
        rw [hdb1u2, find?_updateWhereEmail _ _ _ (applyGoogleUpdate_email g), hfind]
        rfl
      have hU2 : userUpsertByEmail db1.users g id2 now2 =
          (applyGoogleUpdate g (applyGoogleUpdate g u0),
           updateWhereEmail g.email (applyGoogleUpdate g) db1.users) := by
        simp [userUpsertByEmail, hfind1]
      have hdb2u2 : db2.users = updateWhereEmail g.email (applyGoogleUpdate g) db1.users := by
        rw [hdb2u, hU2]
      have hcount1 : 1 ≤ countEmail db.users g.email :=
        one_le_countEmail_of_find?_some _ _ _ hfind
      refine ⟨?_, ?_, ?_⟩
      · rw [hr1, hr2, hU1, hU2]
        rfl
      · rw [hdb2u2, countEmail_updateWhereEmail _ _ _ (applyGoogleUpdate_email g), hdb1u2,
          countEmail_updateWhereEmail _ _ _ (applyGoogleUpdate_email g)]
        omega
      · rw [hdb2u2]
        unfold updateWhereEmail
        exact List.length_map _ _

/-- User row created by the first login of the C3 witness. -/
def created3 : UserRec := googleCreateUser gAudMismatch "u-1" 10

/-- Store after the first login of the C3 witness. -/
def db1W : Db := Db.mk [created3] [RefreshTokenRec.mk "rt-1" "T1" "u-1" 604800010 none]

/-- Result of the first login of the C3 witness. -/
def r1W : LoginResult :=
  LoginResult.mk created3.toPublic (AccessTokenClaims.mk "u-1" "a@b.com" "USER" 900) "T1"

/-- Store after the second login of the C3 witness. -/
def db2W : Db :=
  Db.mk [created3]
    [RefreshTokenRec.mk "rt-1" "T1" "u-1" 604800010 none,
     RefreshTokenRec.mk "rt-2" "T2" "u-1" 604800020 none]

/-- Result of the second login of the C3 witness. -/
def r2W : LoginResult :=
  LoginResult.mk created3.toPublic (AccessTokenClaims.mk "u-1" "a@b.com" "USER" 900) "T2"

/-- C3 witness: two concrete identical logins starting from an empty
store share the user id and leave one user row. -/
theorem google_login_idempotent_witness :
    r1W.user.id = r2W.user.id ∧ countEmail db2W.users gAudMismatch.email = 1 ∧
    db2W.users.length = db1W.users.length :=
  google_login_idempotent dbEmpty fcfgTwoAudiences jcfgW gAudMismatch 10 20 "u-1" "T1" "rt-1"
    "u-2" "T2" "rt-2" r1W r2W db1W db2W (by decide) (by decide) rfl rfl

/-- A soft-deleted user row: the deletion timestamp is set. -/
def uDeleted : UserRec :=
  UserRec.mk "u-del" "deleted@example.com" "google" (some "g-1") none none none
    none "USER" true 0 (some 50)

/-- External claims carrying the soft-deleted users email. -/
def gDeleted : GoogleUserInfo :=
  GoogleUserInfo.mk "accounts.google.com" "x" "web-client" "g-1" "h"
    "deleted@example.com" true "D" "" "" "" "en" "0" "0"

/-- Store with one soft-deleted user and one valid credential owned by
that user. -/
def dbSoftDeleted : Db :=
  Db.mk [uDeleted] [RefreshTokenRec.mk "rt-d" "RD" "u-del" 10000 none]

/-- C4: evaluation at the failing input.  The upsert of
`loginWithGoogle` and the user resolution of `refreshTokens` carry no
soft-delete filter, so both authenticate the soft-deleted user
successfully — while the filtered lookups of `getMe` and `emailLogin`
do exclude the same row.  This contradicts the claim that every
authentication lookup excludes soft-deleted users. -/
theorem soft_deleted_user_reachable_for_auth :
    (loginWithGoogle dbSoftDeleted fcfgTwoAudiences jcfgW (.ok gDeleted) 100
        "u-new" "TN" "rn").map (fun p => p.fst.user.id) = .ok "u-del" ∧
    (refreshTokens dbSoftDeleted jcfgW 100 "TX" "rx" "RD").map
        (fun p => p.fst.accessToken.sub) = .ok "u-del" ∧
    getMe dbSoftDeleted "u-del" = .error (.unauthorizedException "User not found") ∧
    emailLogin dbSoftDeleted "deleted@example.com" (fun _ => true) =
      .error (.unauthorizedException "Invalid credentials") :=
  ⟨rfl, rfl, rfl, rfl⟩
